import Mathlib

/-!
Shallow embedding of `src/src/tredisdriver.cpp` (class `TRedisDriver`, a
minimal RESP client from the treefrog-framework repository).

Modelling conventions:
- a `QByteArray` byte buffer is a `List Char`; the driver's member cursor
  `pos` is passed and returned explicitly as a `Nat`;
- on the primary (non-Windows) build the `CRLF` macro is the two-byte
  string `"\r\n"`; the line-scanning helpers below hard-code that build.
  The Windows variant (`CRLF` = `"\n"`) is modelled separately for the
  command encoder, where the build difference is under scrutiny;
- a read of `buffer[i]` through Qt's `QByteRef` returns the NUL character
  when `i` is out of range, without resizing; `byteAt` mirrors that;
- the socket and the event loop are external: `readReply` is modelled by a
  trace of byte chunks, one chunk per successful `readReply` call, the end
  of the trace standing for the 2000 ms read timeout elapsing with no new
  bytes (`readReply` returning false);
- `QByteArray`'s null/empty distinction is `Option (List Char)`: `none` is
  the null array, `some []` the empty one.
-/

namespace TRedisDriver

/-- Read of `buffer[i]` through a Qt `QByteRef`: out-of-range reads return
the NUL character instead of failing. -/
def byteAt (b : List Char) (i : Nat) : Char :=
  b.getD i (Char.ofNat 0)

/-- Index of the first occurrence of the two-byte sequence CR LF, relative
to the head of the list; `none` when absent. -/
def indexOfCRLF : List Char → Option Nat
  | [] => none
  | [_] => none
  | c1 :: c2 :: rest =>
      if c1 = '\r' ∧ c2 = '\n' then some 0
      else
        match indexOfCRLF (c2 :: rest) with
        | none => none
        | some k => some (k + 1)

/-- Mirror of `buffer.indexOf(CRLF, pos)` on the non-Windows build: the
first absolute index `≥ pos` where CR LF occurs, `none` when absent. -/
def indexOfFrom (b : List Char) (pos : Nat) : Option Nat :=
  (indexOfCRLF (b.drop pos)).map (· + pos)

/-- Result of `TRedisDriver::getNumber`: the parsed number, the `*ok`
outcome, and the cursor after the call. -/
structure NumResult where
  num : Int
  ok : Bool
  pos : Nat

/-- Result of `TRedisDriver::getLine`. -/
structure LineResult where
  line : List Char
  ok : Bool
  pos : Nat

/-- Result of `TRedisDriver::parseBulkString`; `str` keeps `QByteArray`'s
null (`none`) / empty (`some []`) distinction. -/
structure BulkResult where
  str : Option (List Char)
  ok : Bool
  pos : Nat

/-- Value appended to the `QVariantList` reply: a bulk string (possibly
null), an integer, or a nested array. -/
inductive RVal where
  | bulk : Option (List Char) → RVal
  | int : Int → RVal
  | arr : List RVal → RVal

/-- Result of `TRedisDriver::parseArray`. -/
structure ArrayResult where
  lst : List RVal
  ok : Bool
  pos : Nat

/-- Digit-accumulation loop of `TRedisDriver::getNumber`: consume the
maximal run of decimal digits, accumulating `num = num * 10 + digit`.  The
C++ loop stops at the first non-digit byte; reading past the end of the
buffer yields NUL, also a non-digit, so walking the dropped suffix is
faithful. -/
def digitRun : List Char → Int → Int
  | [], num => num
  | d :: rest, num =>
      if '0' ≤ d ∧ d ≤ '9' then digitRun rest (num * 10 + ((d.toNat : Int) - 48))
      else num

/-- `TRedisDriver::getNumber`: fail (cursor untouched) when no CR LF lies at
or after `pos`; otherwise read an optional leading minus sign, accumulate
the digit run that follows, set the cursor just past the terminator and
report success.  A non-digit byte before the terminator merely stops the
run; it is not an error. -/
def getNumber (b : List Char) (pos : Nat) : NumResult :=
  match indexOfFrom b pos with
  | none => ⟨0, false, pos⟩
  | some idx =>
      let num :=
        if byteAt b pos = '-' then -(digitRun (b.drop (pos + 1)) 0)
        else digitRun (b.drop pos) 0
      ⟨num, true, idx + 2⟩

/-- `TRedisDriver::getLine`: fail (cursor untouched) when no CR LF lies at
or after `pos`; otherwise return `buffer.mid(pos, idx)` — the `idx` bytes
starting at `pos`, where `idx` is the absolute index of the terminator —
and set the cursor just past the terminator. -/
def getLine (b : List Char) (pos : Nat) : LineResult :=
  match indexOfFrom b pos with
  | none => ⟨[], false, pos⟩
  | some idx => ⟨(b.drop pos).take idx, true, idx + 2⟩

/-- `TRedisDriver::parseBulkString`: skip the `$` tag, read the declared
length line; length `< -1` is an error, `-1` a null string; otherwise the
code requires only `pos + 2 ≤ buffer.length()` (not `pos + len + 2`),
takes `buffer.mid(pos, len)` (clamped at the end of the buffer) and adds
`len + 2` to the cursor.  Every failure restores the entry cursor.  The
debug-only `Q_ASSERT` on the tag byte is a no-op in release builds and is
not modelled. -/
def parseBulkString (b : List Char) (pos : Nat) : BulkResult :=
  let startpos := pos
  let n := getNumber b (pos + 1)
  if n.ok then
    if n.num < -1 then ⟨none, false, startpos⟩
    else if n.num = -1 then ⟨none, true, n.pos⟩
    else if n.pos + 2 ≤ b.length then
      ⟨some (if n.num > 0 then (b.drop n.pos).take n.num.toNat else []), true,
        n.pos + n.num.toNat + 2⟩
    else ⟨none, false, startpos⟩
  else ⟨none, false, startpos⟩

/-- Modelled from the spec: the reply type tag byte for an error reply,
declared in the missing header `tredisdriver.h` (spec section 6 fixes the
five RESP tags). -/
def tagError : Char := '-'

/-- Modelled from the spec: the simple-string reply tag byte from the
missing header `tredisdriver.h`. -/
def tagSimpleString : Char := '+'

/-- Modelled from the spec: the integer reply tag byte from the missing
header `tredisdriver.h`. -/
def tagInteger : Char := ':'

/-- Modelled from the spec: the bulk-string reply tag byte from the missing
header `tredisdriver.h`. -/
def tagBulkString : Char := '$'

/-- Modelled from the spec: the array reply tag byte from the missing
header `tredisdriver.h`. -/
def tagArray : Char := '*'

/-- One iteration of the element `switch` inside `TRedisDriver::parseArray`:
dispatch on the byte at the cursor, run the element parser, append the
element to the list on success.  Returns the updated list, the `*ok` flag
and the cursor after the attempt.  `pa` is the recursive array parser (at
one fuel unit less). -/
def elemStep (pa : List Char → Nat → ArrayResult) (b : List Char)
    (lst : List RVal) (pos : Nat) : List RVal × Bool × Nat :=
  if byteAt b pos = tagBulkString then
    let r := parseBulkString b pos
    ((if r.ok then lst ++ [RVal.bulk r.str] else lst), r.ok, r.pos)
  else if byteAt b pos = tagInteger then
    let r := getNumber b (pos + 1)
    ((if r.ok then lst ++ [RVal.int r.num] else lst), r.ok, r.pos)
  else if byteAt b pos = tagArray then
    let r := pa b pos
    ((if r.ok then lst ++ [RVal.arr r.lst] else lst), r.ok, r.pos)
  else (lst, false, pos)

/-- The `while (*ok)` element loop of `TRedisDriver::parseArray`.  The C++
loop terminates because every successful element strictly advances the
cursor and the count check runs after each element; the fuel argument is a
bound on the iteration count (the caller passes `b.length + 1`, which the
cursor advance makes sufficient), and running out of fuel is mapped to the
failure exit, which restores `startpos` exactly as the C++ failure exit
does.  The loop exits when `*ok` is false or `lst.count() >= count`; on an
`ok` exit the cursor stands after the consumed elements, otherwise it is
restored to `startpos`. -/
def parseElemsGo (pa : List Char → Nat → ArrayResult) (b : List Char)
    (startpos : Nat) (count : Int) :
    Nat → List RVal → Nat → ArrayResult
  | 0, lst, _pos => ⟨lst, false, startpos⟩
  | Nat.succ fuel, lst, pos =>
      let s := elemStep pa b lst pos
      if s.2.1 = false ∨ count ≤ (s.1.length : Int) then
        (if s.2.1 then ⟨s.1, true, s.2.2⟩ else ⟨s.1, false, startpos⟩)
      else parseElemsGo pa b startpos count fuel s.1 s.2.2

/-- `TRedisDriver::parseArray`, with an explicit recursion-depth fuel for
nested arrays: skip the `*` tag, read the declared count line, then run the
element loop.  Every failure restores the entry cursor.  Out-of-fuel is
mapped to the failure exit; the caller passes `b.length + 1`, more than the
possible nesting depth, so that branch is never taken on the actual
definition below. -/
def parseArrayF : Nat → List Char → Nat → ArrayResult
  | 0, _b, pos => ⟨[], false, pos⟩
  | Nat.succ fuel, b, pos =>
      let n := getNumber b (pos + 1)
      if n.ok then parseElemsGo (parseArrayF fuel) b pos n.num (b.length + 1) [] n.pos
      else ⟨[], false, pos⟩

/-- `TRedisDriver::parseArray` at the fuel bound `b.length + 1`. -/
def parseArray (b : List Char) (pos : Nat) : ArrayResult :=
  parseArrayF (b.length + 1) b pos

/-- Driver state manipulated by `readReply` and `request`: the member
buffer and the member cursor. -/
structure ReqState where
  buffer : List Char
  pos : Nat

/-- `TRedisDriver::clearBuffer`: `buffer.resize(0); pos = 0`. -/
def clearBuffer : ReqState := ⟨[], 0⟩

/-- Observable outcome of `TRedisDriver::request`: the returned `bool`, the
`reply` out-parameter, and the driver state (buffer, cursor) left behind. -/
structure ReqResult where
  ret : Bool
  reply : List RVal
  buffer : List Char
  pos : Nat

/-- The `for (;;)` loop of `TRedisDriver::request`, driven by a trace of
byte chunks, one per successful `readReply` call.  Each `readReply` first
drops the consumed prefix (`buffer.remove(0, pos)` when `pos > 0`, then
`pos = 0`), then appends the next chunk; an exhausted trace or an empty
chunk is `readReply` returning false — the 2000 ms read timeout with no
growth — upon which `request` calls `clearBuffer()` and breaks without
touching `ret`.  Otherwise the `switch` on the tag byte at the cursor runs:
Error sets `ret = false` and scans the line; SimpleString scans the line
(the string is only logged, never appended to `reply`); Integer advances
past the tag then reads the number; BulkString and Array run their parsers;
any other byte sets `ret = false`, clears the buffer and jumps to
`parse_done`.  When the parse reported ok the loop breaks; otherwise the
cursor is set back to `startpos` — the member cursor captured at function
entry, before `clearBuffer` — and the loop retries. -/
def requestLoop : List (List Char) → Nat → ReqState → Bool → List RVal → ReqResult
  | [], _startpos, _st, ret, reply => ⟨ret, reply, clearBuffer.buffer, clearBuffer.pos⟩
  | c :: rest, startpos, st, ret, reply =>
      if c = [] then ⟨ret, reply, clearBuffer.buffer, clearBuffer.pos⟩
      else
        let b := (if st.pos > 0 then st.buffer.drop st.pos else st.buffer) ++ c
        let t := byteAt b 0
        if t = tagError then
          let r := getLine b 0
          if r.ok then ⟨false, reply, b, r.pos⟩
          else requestLoop rest startpos ⟨b, startpos⟩ false reply
        else if t = tagSimpleString then
          let r := getLine b 0
          if r.ok then ⟨ret, reply, b, r.pos⟩
          else requestLoop rest startpos ⟨b, startpos⟩ ret reply
        else if t = tagInteger then
          let r := getNumber b 1
          if r.ok then ⟨ret, reply ++ [RVal.int r.num], b, r.pos⟩
          else requestLoop rest startpos ⟨b, startpos⟩ ret reply
        else if t = tagBulkString then
          let r := parseBulkString b 0
          if r.ok then ⟨ret, reply ++ [RVal.bulk r.str], b, r.pos⟩
          else requestLoop rest startpos ⟨b, startpos⟩ ret reply
        else if t = tagArray then
          let r := parseArray b 0
          if r.ok then ⟨ret, r.lst, b, r.pos⟩
          else requestLoop rest startpos ⟨b, startpos⟩ ret []
        else ⟨false, reply, clearBuffer.buffer, clearBuffer.pos⟩

/-- `TRedisDriver::request` on the reply side: capture `startpos` (the
member cursor at entry), encode and write the command to the socket (no
effect on the parse state, so not a parameter here), call `clearBuffer()`,
then run the receive/parse loop over the chunk trace.  `ret` starts true
and `reply` empty. -/
def request (entryPos : Nat) (chunks : List (List Char)) : ReqResult :=
  requestLoop chunks entryPos clearBuffer true []

/-- Decimal rendering of a nonnegative count or length, as
`QByteArray::number` produces for the values that occur here. -/
def qNumber (n : Nat) : List Char := (Nat.repr n).data

/-- The `CRLF` macro on the primary (non-Windows) build: the two bytes
CR LF. -/
def CRLF : List Char := ['\r', '\n']

/-- The `CRLF` macro under `Q_OS_WIN`: the single byte LF. -/
def CRLFwin : List Char := ['\n']

/-- `TRedisDriver::toBulk` with the line terminator made explicit:
`"$" + number(data.length()) + CRLF + data + CRLF`. -/
def toBulkWith (eol : List Char) (data : List Char) : List Char :=
  '$' :: (qNumber data.length ++ eol ++ data ++ eol)

/-- `TRedisDriver::toMultiBulk` with the line terminator made explicit:
`"*" + number(data.count()) + CRLF` then each argument through `toBulk`. -/
def toMultiBulkWith (eol : List Char) (data : List (List Char)) : List Char :=
  '*' :: (qNumber data.length ++ eol ++ (data.map (toBulkWith eol)).flatten)

/-- `TRedisDriver::toBulk` as compiled on the primary build. -/
def toBulk (data : List Char) : List Char := toBulkWith CRLF data

/-- `TRedisDriver::toMultiBulk` as compiled on the primary build. -/
def toMultiBulk (data : List (List Char)) : List Char := toMultiBulkWith CRLF data

/-- Observable outcome of `TRedisDriver::open`: whether a connection
attempt was made, the host and port handed to `connectToHost`, the
`waitForState` bound in milliseconds, and the returned `bool`. -/
structure OpenOutcome where
  connectAttempted : Bool
  host : List Char
  port : Nat
  waitMs : Nat
  returned : Bool

/-- The `DEFAULT_PORT` constant. -/
def DEFAULT_PORT : Nat := 6379

/-- `TRedisDriver::open`: when `isOpen()` already holds, return true at
once (no connection attempt).  Otherwise substitute `"localhost"` for an
empty host and `DEFAULT_PORT` for port 0 (`port` is a `quint16`, so
`port <= 0` holds exactly when `port = 0`), call `connectToHost` and wait
up to 5000 ms for the connected state; the wait's outcome (external) is the
return value. -/
def openDriver (alreadyOpen : Bool) (host : List Char) (port : Nat)
    (waitOk : Bool) : OpenOutcome :=
  if alreadyOpen then ⟨false, host, port, 0, true⟩
  else
    let hst := if host.isEmpty then ("localhost").data else host
    let p := if port = 0 then DEFAULT_PORT else port
    ⟨true, hst, p, 5000, waitOk⟩

example : parseArray ("*2\r\n$1\r\na\r\n*1\r\n:7\r\n").data 0 =
    ⟨[RVal.bulk (some ['a']), RVal.arr [RVal.int 7]], true, 19⟩ := rfl

example : toMultiBulk [("SET").data, ("k").data] =
    ("*2\r\n$3\r\nSET\r\n$1\r\nk\r\n").data := rfl

example : request 0 [("+OK\r\n").data] = ⟨true, [], ("+OK\r\n").data, 5⟩ := rfl

/-- Helper: the element loop of `parseArray` restores `startpos` whenever it
exits with `*ok` false, for every fuel value. -/
theorem parseElemsGo_ok_false_pos (pa : List Char → Nat → ArrayResult)
    (b : List Char) (startpos : Nat) (count : Int) :
    ∀ (fuel : Nat) (lst : List RVal) (pos : Nat),
      (parseElemsGo pa b startpos count fuel lst pos).ok = false →
      (parseElemsGo pa b startpos count fuel lst pos).pos = startpos := by
  intro fuel
  induction fuel with
  | zero => intro lst pos _h; rfl
  | succ n ih =>
      intro lst pos
      rcases hse : elemStep pa b lst pos with ⟨lst', ok, pos'⟩
      simp only [parseElemsGo, hse]
      cases ok with
      | false => intro _h; simp
      | true =>
          by_cases hc : count ≤ (lst'.length : Int)
          · simp [hc]
          · simp only [hc]
            simp only [Bool.true_eq_false, false_or, if_false]
            exact ih lst' pos'

/-- Helper: `parseArrayF` restores the entry cursor whenever it reports
failure, for every fuel value. -/
theorem parseArrayF_ok_false_pos :
    ∀ (fuel : Nat) (b : List Char) (pos : Nat),
      (parseArrayF fuel b pos).ok = false → (parseArrayF fuel b pos).pos = pos := by
  intro fuel b pos
  cases fuel with
  | zero => intro _h; rfl
  | succ n =>
      cases hn : (getNumber b (pos + 1)).ok with
      | false => intro _h; simp [parseArrayF, hn]
      | true =>
          simp only [parseArrayF, hn, if_true]
          exact parseElemsGo_ok_false_pos _ _ _ _ _ _ _

/-- C1: whenever a parse attempt (line scan, number scan, bulk-string parse,
array parse) does not report a complete reply (`*ok` is false), the cursor
after the attempt equals the cursor before it, so a retry after appending
more bytes starts from the same position. -/
theorem c1_nondone_preserves_cursor (b : List Char) (p : Nat) :
    ((getLine b p).ok = false → (getLine b p).pos = p)
  ∧ ((getNumber b p).ok = false → (getNumber b p).pos = p)
  ∧ ((parseBulkString b p).ok = false → (parseBulkString b p).pos = p)
  ∧ ((parseArray b p).ok = false → (parseArray b p).pos = p) := by
  refine ⟨?_, ?_, ?_, ?_⟩
  · cases hi : indexOfFrom b p <;> simp [getLine, hi]
  · cases hi : indexOfFrom b p <;> simp [getNumber, hi]
  · simp only [parseBulkString]
    repeat' split
    all_goals simp
  · exact parseArrayF_ok_false_pos _ b p

/-- Witness for C1 at buffer `"x"`, cursor 0: every one of the four parse
attempts fails there and leaves the cursor at 0. -/
theorem c1_witness :
    (getLine ['x'] 0).pos = 0 ∧ (getNumber ['x'] 0).pos = 0
  ∧ (parseBulkString ['x'] 0).pos = 0 ∧ (parseArray ['x'] 0).pos = 0 :=
  ⟨(c1_nondone_preserves_cursor ['x'] 0).1 (by decide),
   (c1_nondone_preserves_cursor ['x'] 0).2.1 (by decide),
   (c1_nondone_preserves_cursor ['x'] 0).2.2.1 (by decide),
   (c1_nondone_preserves_cursor ['x'] 0).2.2.2 (by decide)⟩

/-- C2 (code bug, evaluated at the failing input): on the buffer
`"$5\r\nab"` — declared length 5 but only 2 payload bytes and no
terminator present — `parseBulkString` reports a complete parse with the
truncated payload `"ab"` and cursor 11, instead of reporting Incomplete;
the code checks `pos + 2 <= buffer.length()` where the claim requires all
`len + 2` remaining bytes. -/
theorem c2_truncated_bulk_accepted :
    parseBulkString (("$5\r\nab").data) 0 = ⟨some ['a', 'b'], true, 11⟩
  ∧ (("$5\r\nab").data).length = 6 :=
  ⟨rfl, rfl⟩

/-- C3 (code bug, evaluated at the failing trace): when the reply bytes
`":12"` arrive but the line terminator never does, `request` exits its loop
on the read timeout returning `true` — the very value a successful exchange
returns — and `clearBuffer()` has discarded the received bytes. -/
theorem c3_timeout_returns_success_value_and_discards :
    (request 0 [((":12").data)]).ret = true
  ∧ (request 0 [((":12").data)]).ret = (request 0 [(("+OK\r\n").data)]).ret
  ∧ (request 0 [((":12").data)]).buffer = [] :=
  ⟨rfl, rfl, rfl⟩

/-- C4 (code bug, evaluated at the failing input): after parsing the
truncated bulk string `"$5\r\nab"` (length 6) the parser reports success
with cursor 11, violating the invariant `cursor ≤ length`. -/
theorem c4_cursor_exceeds_buffer_length :
    (parseBulkString (("$5\r\nab").data) 0).ok = true
  ∧ (parseBulkString (("$5\r\nab").data) 0).pos = 11
  ∧ (("$5\r\nab").data).length = 6 :=
  ⟨rfl, rfl, rfl⟩

/-- C5 (code bug, evaluated at the failing inputs): `parseArray` fails
(with the cursor restored) on both the null array `"*-1\r\n"` and the
empty array `"*0\r\n"`, because the `lst.count() >= count` check runs only
after attempting to parse an element, and the byte after the count line
(out of range, hence NUL) falls into the `Bad logic` default branch; no
null array value distinct from an empty one is ever produced. -/
theorem c5_null_and_empty_array_both_fail :
    parseArray (("*-1\r\n").data) 0 = ⟨[], false, 0⟩
  ∧ parseArray (("*0\r\n").data) 0 = ⟨[], false, 0⟩ :=
  ⟨rfl, rfl⟩

/-- C6 counterexample: on the buffer `"-ERR bad\r\n"` at cursor 0 the line
scan succeeds but returns the payload `"-ERR bad"` — the tag byte is
included — not `"ERR bad"` as the claim states. -/
theorem c6_counterexample :
    (getLine (("-ERR bad\r\n").data) 0).ok = true
  ∧ (getLine (("-ERR bad\r\n").data) 0).line = ("-ERR bad").data
  ∧ (getLine (("-ERR bad\r\n").data) 0).line ≠ ("ERR bad").data :=
  ⟨rfl, rfl, by decide⟩

/-- C6 amended: for every error or simple-string reply starting at cursor 0
whose line terminator is present at index `idx`, the parsed payload is the
first `idx` bytes of the buffer — the whole line including the leading tag
byte (`request` never advances past the tag before calling `getLine`, and
`getLine` returns `buffer.mid(pos, idx)`) — and the cursor moves past the
terminator. -/
theorem c6_line_includes_tag (b : List Char) (idx : Nat)
    (h : indexOfFrom b 0 = some idx) :
    getLine b 0 = ⟨b.take idx, true, idx + 2⟩ := by
  simp [getLine, h]

/-- Witness for the amended C6 at the buffer `"-ERR bad\r\n"`: the
terminator sits at index 8 and the payload is the first 8 bytes,
`"-ERR bad"`, tag included. -/
theorem c6_amended_witness :
    getLine (("-ERR bad\r\n").data) 0 = ⟨(("-ERR bad\r\n").data).take 8, true, 10⟩ :=
  c6_line_includes_tag (("-ERR bad\r\n").data) 8 (by decide)

/-- C7 (code bug, evaluated at the failing input): on the integer reply
`":12x3\r\n"` the number scan (entered at cursor 1, after the tag) accepts
the line, silently stopping at the non-digit `'x'`, and reports success
with value 12 instead of reporting Malformed. -/
theorem c7_nondigit_silently_accepted :
    getNumber ((":12x3\r\n").data) 1 = ⟨12, true, 7⟩ :=
  rfl

/-- C8 counterexample: a well-formed server Error reply (`"-ERR bad\r\n"`)
and a corrupt stream with an unexpected tag byte (`"!bad\r\n"`) produce the
same observable `request` result — returned `bool` false and an empty
reply list — so the two failure classes are conflated, and the server
error is not represented as a successful parse. -/
theorem c8_conflation_counterexample :
    (request 0 [(("-ERR bad\r\n").data)]).ret = (request 0 [(("!bad\r\n").data)]).ret
  ∧ (request 0 [(("-ERR bad\r\n").data)]).reply = (request 0 [(("!bad\r\n").data)]).reply
  ∧ (request 0 [(("-ERR bad\r\n").data)]).ret = false :=
  ⟨rfl, rfl, rfl⟩

/-- C8 amended: every reply whose first byte is the Error tag and whose
line terminator is present makes `request` return false with no reply
values — observably identical to the unexpected-tag (protocol error)
outcome; the two classes are told apart only in logging, not in the
returned result. -/
theorem c8_server_error_returns_false_empty (b : List Char) (idx : Nat)
    (h1 : b.head? = some '-') (h2 : indexOfFrom b 0 = some idx) :
    (request 0 [b]).ret = false ∧ (request 0 [b]).reply = [] := by
  cases b with
  | nil => simp at h1
  | cons c t =>
      have hc : c = '-' := by simpa using h1
      subst hc
      simp [request, requestLoop, clearBuffer, byteAt, tagError, getLine, h2]

/-- Witness for the amended C8 at the server error reply `"-ERR bad\r\n"`. -/
theorem c8_amended_witness :
    (request 0 [(("-ERR bad\r\n").data)]).ret = false
  ∧ (request 0 [(("-ERR bad\r\n").data)]).reply = [] :=
  c8_server_error_returns_false_empty (("-ERR bad\r\n").data) 8 (by decide) (by decide)

/-- C9 (code bug, evaluated at the failing input): on the `Q_OS_WIN` build
the `CRLF` macro is the single byte LF, so the empty argument list encodes
to `"*0\n"` — no two-byte CR LF terminator — while the primary build
produces the claimed `"*0\r\n"`; the claim's `"on every build target"` part
fails on Windows. -/
theorem c9_windows_lf_terminator :
    toMultiBulkWith CRLFwin [] = ['*', '0', '\n']
  ∧ toMultiBulkWith CRLF [] = ['*', '0', '\r', '\n'] :=
  ⟨rfl, rfl⟩

/-- C10: when the connection is already open, `open` returns true without a
connection attempt; otherwise it substitutes `"localhost"` for an empty
host and 6379 for port 0, and the connection attempt waits at most 5000 ms
for the connected state. -/
theorem c10_open_defaults (host : List Char) (port : Nat) (w : Bool) :
    openDriver true host port w = ⟨false, host, port, 0, true⟩
  ∧ (openDriver false host port w).connectAttempted = true
  ∧ (openDriver false host port w).waitMs = 5000
  ∧ (openDriver false host port w).returned = w
  ∧ (openDriver false host port w).host =
      (if host.isEmpty then ("localhost").data else host)
  ∧ (openDriver false host port w).port = (if port = 0 then DEFAULT_PORT else port) := by
  refine ⟨rfl, ?_, ?_, ?_, ?_, ?_⟩ <;> simp [openDriver]

end TRedisDriver
